import Mathlib

/-!
Verification of the ai-agent-platform runtime core against its
natural-language specification.

The definitions below are a shallow embedding of the Python source:

* `services/llm_gateway/src/utils/budget.py` — `BudgetEnforcer` and
  `RateLimiter` (budget limits, usage counter, rate window);
* `services/llm_gateway/src/main.py` — the `create_completion` pipeline
  stages (token estimation, budget stage, exception-to-HTTP mapping);
* `services/llm_gateway/src/providers/router.py` — `ProviderRouter.route`
  and its candidate selection;
* `services/control_plane/src/routers/runs.py` — `update_run_status` and
  `cancel_run`;
* `workers/orchestrator/src/sqs_handler.py` — message validation and the
  delete / leave / DLQ decision;
* `workers/orchestrator/src/step_executor.py` — `_update_step_status`,
  `_update_run_usage`, `_is_retryable_error` and the failure path of
  `execute`.

Machine integers are modelled as `ℤ`/`ℕ`; Python float arithmetic on the
small constants involved (0.8, 1.3) is modelled exactly with `ℚ`.
-/

namespace Gateway

/-- Source constant `settings.BUDGET_SOFT_LIMIT_PERCENT` (config.py). -/
def BUDGET_SOFT_LIMIT_PERCENT : ℤ := 80

/-- Source constant `settings.RATE_LIMIT_REQUESTS_PER_MINUTE` (config.py). -/
def RATE_LIMIT_REQUESTS_PER_MINUTE : ℕ := 100

/-- Source constant `settings.RATE_LIMIT_WINDOW_SECONDS` (config.py). -/
def RATE_LIMIT_WINDOW_SECONDS : ℕ := 60

/-- Result dictionary of `BudgetEnforcer._check_limits` (budget.py).
The log-only field `percentage_used` is omitted (it does not affect
control flow). -/
structure LimitsResult where
  allowed : Bool
  budget_monthly : ℤ
  used_current_month : ℤ
  remaining : ℤ
  soft_limit_reached : Bool
  hard_limit_reached : Bool
  deriving Repr, DecidableEq

/-- Embedding of `BudgetEnforcer._check_limits` (budget.py lines 100-138).
The Python float expression `budget_monthly * (80 / 100)` is modelled
exactly in `ℚ`. -/
def check_limits (budget_monthly used_current_month estimated_tokens : ℤ) :
    LimitsResult :=
  let remaining := budget_monthly - used_current_month
  let hard := decide (used_current_month + estimated_tokens ≥ budget_monthly)
  let softThreshold : ℚ :=
    (budget_monthly : ℚ) * ((BUDGET_SOFT_LIMIT_PERCENT : ℚ) / 100)
  let soft := decide ((used_current_month : ℚ) ≥ softThreshold) && !hard
  { allowed := !hard
    budget_monthly := budget_monthly
    used_current_month := used_current_month
    remaining := max 0 remaining
    soft_limit_reached := soft
    hard_limit_reached := hard }

/-- Outcome of the budget stage of `create_completion` (main.py lines
188-208): either the request is denied by raising `BudgetExceededError`
(which `budget_exceeded_handler` maps to HTTP 402 with error string
"budget_exceeded"), or it is allowed, possibly carrying the
`soft_limit_reached` warning. -/
inductive BudgetOutcome where
  | denied (http_status : ℕ) (error : String) (current_usage budget : ℤ)
  | allowed (soft_warning : Bool)
  deriving Repr, DecidableEq

/-- Embedding of the budget stage of `create_completion` together with the
`BudgetExceededError` exception handler (main.py lines 97-115, 188-208). -/
def budget_stage (budget_monthly used_current_month estimated_tokens : ℤ) :
    BudgetOutcome :=
  let r := check_limits budget_monthly used_current_month estimated_tokens
  if r.allowed then
    .allowed r.soft_limit_reached
  else
    .denied 402 "budget_exceeded" r.used_current_month r.budget_monthly

end Gateway

namespace Gateway

/-- Field-level description of `check_limits`, proved from the embedding. -/
lemma check_limits_eq (B U E : ℤ) :
    check_limits B U E =
      { allowed := decide (U + E < B)
        budget_monthly := B
        used_current_month := U
        remaining := max 0 (B - U)
        soft_limit_reached :=
          decide ((B : ℚ) * (80 / 100) ≤ (U : ℚ)) && decide (U + E < B)
        hard_limit_reached := decide (B ≤ U + E) } := by
  by_cases h : B ≤ U + E
  · have h1 : ¬ (U + E < B) := not_lt.mpr h
    simp [check_limits, BUDGET_SOFT_LIMIT_PERCENT, h, h1]
  · have h1 : U + E < B := lt_of_not_le h
    simp [check_limits, BUDGET_SOFT_LIMIT_PERCENT, h, h1]

/-- Case split of `budget_stage`, proved from the embedding. -/
lemma budget_stage_eq (B U E : ℤ) :
    budget_stage B U E =
      if B ≤ U + E then .denied 402 "budget_exceeded" U B
      else .allowed (decide ((B : ℚ) * (80 / 100) ≤ (U : ℚ))) := by
  rw [budget_stage, check_limits_eq]
  by_cases h : B ≤ U + E
  · have h1 : ¬ (U + E < B) := not_lt.mpr h
    simp [h, h1]
  · have h1 : U + E < B := lt_of_not_le h
    simp [h, h1]

/-- C1: with tenant budget B, current usage U and estimated prompt tokens E,
the budget check denies the request with `budget_exceeded` mapped to
HTTP 402 exactly when U + E ≥ B, and it allows the request with the
`soft_limit_reached` warning set exactly when U ≥ B·0.8 and U + E < B. -/
theorem c1_budget_check_iff (B U E : ℤ) :
    (budget_stage B U E = .denied 402 "budget_exceeded" U B ↔ U + E ≥ B) ∧
    (((U : ℚ) ≥ (B : ℚ) * (80 / 100) ∧ U + E < B) ↔
      budget_stage B U E = .allowed true) := by
  rw [budget_stage_eq]
  by_cases h : B ≤ U + E
  · rw [if_pos h]
    constructor
    · simp [ge_iff_le, h]
    · constructor
      · rintro ⟨-, hlt⟩
        exact absurd h (not_le.mpr hlt)
      · intro hc
        exact absurd hc (by simp)
  · rw [if_neg h]
    constructor
    · constructor
      · intro hc
        exact absurd hc (by simp)
      · intro hge
        exact absurd hge h
    · constructor
      · rintro ⟨hs, -⟩
        simp [ge_iff_le.mp hs]
      · intro hc
        simp only [BudgetOutcome.allowed.injEq, decide_eq_true_eq] at hc
        exact ⟨ge_iff_le.mpr hc, lt_of_not_le h⟩

/-- Witness for `c1_budget_check_iff`: with budget 10, usage 8, estimate 1
the request is allowed with the soft-limit warning set. -/
theorem c1_budget_check_iff_witness :
    budget_stage 10 8 1 = .allowed true :=
  ((c1_budget_check_iff 10 8 1).2).1 ⟨by norm_num, by norm_num⟩

end Gateway

namespace Gateway

/-- A value stored in the fast key-value store: a plain integer counter or
the serialized budget blob that `check_budget` writes on a cache miss. -/
inductive FastVal where
  | int (n : ℤ)
  | blob (budget_monthly used_current_month : ℤ)
  deriving Repr, DecidableEq

/-- State of the fast key-value store: a partial map from keys to values.
TTL bookkeeping is modelled separately where a claim needs it. -/
def FastStore := String → Option FastVal

/-- Key of the cached budget blob, `"budget:" + tenant_id` (budget.py). -/
def budget_key (tenant_id : String) : String := "budget:" ++ tenant_id

/-- Key of the usage counter, the budget key suffixed `":counter"`
(budget.py line 155). -/
def counter_key (tenant_id : String) : String :=
  budget_key tenant_id ++ ":counter"

/-- Embedding of the Redis INCRBY command: a missing key (or one holding a
non-integer value) counts as 0 and is created. -/
def incrby (s : FastStore) (key : String) (n : ℤ) : FastStore :=
  fun k =>
    if k = key then
      match s key with
      | some (.int m) => some (.int (m + n))
      | _ => some (.int n)
    else s k

/-- Embedding of `BudgetEnforcer.increment_usage` (budget.py lines 140-161):
a single INCRBY on the tenant's counter key. -/
def increment_usage (s : FastStore) (tenant_id : String) (tokens_used : ℤ) :
    FastStore :=
  incrby s (counter_key tenant_id) tokens_used

/-- Embedding of the cache fast path of `BudgetEnforcer.check_budget`
(budget.py lines 56-70): when a blob is cached under the tenant's budget
key, the limits are computed from the cached numbers alone.  `none`
marks a cache miss (the database path, which recomputes the same
`check_limits` from the tenant row and writes the blob through). -/
def check_budget_cached (s : FastStore) (tenant_id : String)
    (estimated_tokens : ℤ) : Option LimitsResult :=
  match s (budget_key tenant_id) with
  | some (.blob b u) => some (check_limits b u estimated_tokens)
  | _ => none

/-- The counter key of a tenant never collides with its budget key. -/
lemma budget_key_ne_counter_key (t : String) :
    budget_key t ≠ counter_key t := by
  intro h
  have hlen := congrArg String.length h
  simp [budget_key, counter_key, String.length_append] at hlen
  exact absurd hlen (by decide)

/-- C10: `increment_usage` modifies only the tenant's counter key, by
adding n to it; every other key — in particular the cached budget blob —
is untouched, so a cache-hitting budget check returns exactly what it
returned before the increment. -/
theorem c10_increment_usage_frame (s : FastStore) (t : String) (n : ℤ) :
    (∀ k, k ≠ counter_key t → increment_usage s t n k = s k) ∧
    (∀ m, s (counter_key t) = some (.int m) →
      increment_usage s t n (counter_key t) = some (.int (m + n))) ∧
    (∀ E, check_budget_cached (increment_usage s t n) t E =
      check_budget_cached s t E) := by
  refine ⟨?_, ?_, ?_⟩
  · intro k hk
    simp [increment_usage, incrby, hk]
  · intro m hm
    simp [increment_usage, incrby, hm]
  · intro E
    have hk := budget_key_ne_counter_key t
    simp [check_budget_cached, increment_usage, incrby, hk]

/-- A concrete fast-store state used for the C10 witness. -/
def fast_store_example : FastStore :=
  fun k =>
    if k = "budget:tenant1" then some (.blob 100 10)
    else if k = "budget:tenant1:counter" then some (.int 2)
    else none

/-- Witness for `c10_increment_usage_frame` at a concrete store: the blob
key is untouched, the counter goes from 2 to 7, and a cached budget
check is unchanged by the increment. -/
theorem c10_increment_usage_frame_witness :
    increment_usage fast_store_example "tenant1" 5 "budget:tenant1" =
      fast_store_example "budget:tenant1" ∧
    increment_usage fast_store_example "tenant1" 5 "budget:tenant1:counter" =
      some (.int 7) ∧
    check_budget_cached (increment_usage fast_store_example "tenant1" 5)
      "tenant1" 20 = check_budget_cached fast_store_example "tenant1" 20 :=
  ⟨(c10_increment_usage_frame fast_store_example "tenant1" 5).1
      "budget:tenant1" (by decide),
   (c10_increment_usage_frame fast_store_example "tenant1" 5).2.1
      2 (by decide),
   (c10_increment_usage_frame fast_store_example "tenant1" 5).2.2 20⟩

end Gateway

namespace Gateway

/-- Redis state of a single rate key: the current counter value and the
remaining TTL in seconds.  `ttl = none` models a key that does not exist
(count 0) or has no expiry set. -/
structure RateKey where
  count : ℕ
  ttl : Option ℕ
  deriving Repr, DecidableEq

/-- Embedding of the Redis INCR command on the rate key: increments the
counter and never touches the TTL (INCR creates a missing key without
an expiry). -/
def rate_incr (k : RateKey) : RateKey := { k with count := k.count + 1 }

/-- Embedding of the Redis EXPIRE command on the rate key: sets the TTL to
the given window, replacing any remaining TTL. -/
def rate_expire (k : RateKey) (window : ℕ) : RateKey :=
  { k with ttl := some window }

/-- Result dictionary of `RateLimiter.check_rate_limit`.  `remaining` uses
truncated subtraction, matching the source's `max(0, limit - current)`. -/
structure RateResult where
  allowed : Bool
  limit : ℕ
  current : ℕ
  remaining : ℕ
  reset_seconds : ℕ
  deriving Repr, DecidableEq

/-- Embedding of `RateLimiter.check_rate_limit` (budget.py lines 174-223):
a pipeline of INCR then EXPIRE, after which the post-increment count is
compared against the limit. -/
def check_rate_limit (k : RateKey) (limit window : ℕ) :
    RateKey × RateResult :=
  let k1 := rate_expire (rate_incr k) window
  let current := (rate_incr k).count
  (k1,
   { allowed := decide (current ≤ limit)
     limit := limit
     current := current
     remaining := limit - current
     reset_seconds := window })

/-- Outcome of the rate-limit stage of `create_completion` (main.py lines
178-181): denial raises `RateLimitError`, which `rate_limit_handler`
(main.py lines 118-129) maps to HTTP 429 with a Retry-After header equal
to the result's `reset_seconds`. -/
inductive RateOutcome where
  | denied (http_status : ℕ) (error : String) (retry_after_header : ℕ)
  | allowed
  deriving Repr, DecidableEq

/-- Embedding of the rate-limit stage of `create_completion` together with
the `RateLimitError` exception handler. -/
def rate_stage (k : RateKey) (limit window : ℕ) : RateKey × RateOutcome :=
  let p := check_rate_limit k limit window
  (p.1,
   if p.2.allowed then .allowed
   else .denied 429 "rate_limit_exceeded" p.2.reset_seconds)

end Gateway

namespace Gateway

/-- C4 counterexample: the claim says only the first increment of a window
sets the key's TTL, so a later request must leave a decayed TTL (here
30 s) unchanged; but the code pipes EXPIRE on every check, so the TTL
after the check is the full window (60 s) again. -/
theorem c4_ttl_counterexample :
    (check_rate_limit { count := 1, ttl := some 30 } 100 60).1.ttl =
      some 60 ∧ some (60 : ℕ) ≠ some (30 : ℕ) := by
  constructor
  · rfl
  · decide

/-- C4 amended: every rate-limit check atomically increments the counter
and sets the key's TTL to the window length (so each request refreshes
the expiry, extending the window); the check is allowed if and only if
the post-increment count is at most the limit, and a denied request
yields HTTP 429 with Retry-After equal to the window length. -/
theorem c4_rate_limit_amended (k : RateKey) (limit window : ℕ) :
    (check_rate_limit k limit window).1.count = k.count + 1 ∧
    (check_rate_limit k limit window).1.ttl = some window ∧
    ((check_rate_limit k limit window).2.allowed = true ↔
      k.count + 1 ≤ limit) ∧
    (rate_stage k limit window).2 =
      (if k.count + 1 ≤ limit then .allowed
       else .denied 429 "rate_limit_exceeded" window) := by
  refine ⟨rfl, rfl, by simp [check_rate_limit, rate_incr], ?_⟩
  by_cases h : k.count + 1 ≤ limit
  · simp [rate_stage, check_rate_limit, rate_incr, h]
  · simp [rate_stage, check_rate_limit, rate_incr, h]

end Gateway

namespace Gateway

/-- Whitespace predicate of Python `str.split()` for the ASCII whitespace
characters (space, tab, newline, carriage return, vertical tab, form
feed). -/
def is_py_space (c : Char) : Bool :=
  c = ' ' || c = '\t' || c = '\n' || c = '\r' ||
  c = Char.ofNat 11 || c = Char.ofNat 12

/-- Number of maximal non-whitespace runs in a character list; the Boolean
argument records whether the previous character was inside a word. -/
def count_words : List Char → Bool → ℕ
  | [], _ => 0
  | c :: cs, in_word =>
    if is_py_space c then count_words cs false
    else (if in_word then 0 else 1) + count_words cs true

/-- Word count of a message content string, as computed by Python
`len(content.split())`: whitespace runs separate words, leading and
trailing whitespace is ignored. -/
def word_count (content : String) : ℕ :=
  count_words content.toList false

/-- Embedding of the token estimate in `create_completion` (main.py lines
183-186): `int(sum(len(msg.content.split()) * 1.3 for msg in messages))`.
In exact arithmetic the sum equals `1.3 · Σ word_count`, and `int()`
truncates the nonnegative value toward zero, i.e. takes the floor, which
is the natural-number division below. -/
def estimated_tokens (messages : List String) : ℕ :=
  13 * (messages.map word_count).sum / 10

/-- Written from the spec's words (spec section 4.2, token estimation) for
comparison with `estimated_tokens`: the ceiling of 1.3 times the total
word count. -/
def spec_estimated_tokens (messages : List String) : ℕ :=
  ⌈(13 : ℚ) / 10 * (((messages.map word_count).sum : ℕ) : ℚ)⌉₊

/-- Ceiling of a natural number divided by ten, as natural arithmetic. -/
lemma nat_ceil_div_ten (a : ℕ) : ⌈(a : ℚ) / 10⌉₊ = (a + 9) / 10 := by
  apply le_antisymm
  · rw [Nat.ceil_le, div_le_iff₀ (by norm_num : (0:ℚ) < 10)]
    have h : a ≤ 10 * ((a + 9) / 10) := by omega
    have h2 : ((a : ℚ)) ≤ ((10 * ((a + 9) / 10) : ℕ) : ℚ) := by exact_mod_cast h
    push_cast at h2
    linarith
  · rcases Nat.eq_zero_or_pos ((a + 9) / 10) with h0 | hpos
    · simp [h0]
    · have hlt : ((a + 9) / 10 - 1) * 10 < a := by omega
      have h1 : ((a + 9) / 10 - 1) + 1 ≤ ⌈(a : ℚ) / 10⌉₊ := by
        rw [Nat.add_one_le_ceil_iff, lt_div_iff₀ (by norm_num : (0:ℚ) < 10)]
        exact_mod_cast hlt
      omega

/-- The spec's ceiling estimate in natural arithmetic. -/
lemma spec_estimated_tokens_eq (messages : List String) :
    spec_estimated_tokens messages =
      (13 * (messages.map word_count).sum + 9) / 10 := by
  have harg : (13 : ℚ) / 10 * (((messages.map word_count).sum : ℕ) : ℚ) =
      ((13 * (messages.map word_count).sum : ℕ) : ℚ) / 10 := by
    push_cast
    ring
  rw [spec_estimated_tokens, harg, nat_ceil_div_ten]

/-- C5 counterexample: for a single message "ping" (one word), the code's
estimate is int(1·1.3) = 1, while the spec's ceiling is 2; the claim
that the pre-call estimate equals the ceiling fails. -/
theorem c5_estimate_counterexample :
    estimated_tokens ["ping"] = 1 ∧ spec_estimated_tokens ["ping"] = 2 ∧
    estimated_tokens ["ping"] ≠ spec_estimated_tokens ["ping"] := by
  have h1 : estimated_tokens ["ping"] = 1 := by decide
  have h2 : spec_estimated_tokens ["ping"] = 2 := by
    rw [spec_estimated_tokens_eq]
    decide
  exact ⟨h1, h2, by omega⟩

/-- C5 amended: the pre-call estimate is the floor (truncation), not the
ceiling, of 1.3 times the total whitespace-separated word count; it
differs from the spec's ceiling by at most one and coincides with it
exactly when 13 times the total word count is divisible by 10. -/
theorem c5_estimate_amended (messages : List String) :
    estimated_tokens messages =
      ⌊(13 : ℚ) / 10 * (((messages.map word_count).sum : ℕ) : ℚ)⌋₊ ∧
    estimated_tokens messages ≤ spec_estimated_tokens messages ∧
    spec_estimated_tokens messages ≤ estimated_tokens messages + 1 ∧
    (estimated_tokens messages = spec_estimated_tokens messages ↔
      10 ∣ 13 * (messages.map word_count).sum) := by
  have harg : (13 : ℚ) / 10 * (((messages.map word_count).sum : ℕ) : ℚ) =
      ((13 * (messages.map word_count).sum : ℕ) : ℚ) / 10 := by
    push_cast
    ring
  refine ⟨?_, ?_, ?_, ?_⟩
  · rw [harg, Nat.floor_div_ofNat, Nat.floor_natCast, estimated_tokens]
  · rw [spec_estimated_tokens_eq, estimated_tokens]
    omega
  · rw [spec_estimated_tokens_eq, estimated_tokens]
    omega
  · rw [spec_estimated_tokens_eq, estimated_tokens,
      Nat.dvd_iff_mod_eq_zero]
    omega

/-- Witness for `c5_estimate_amended` at a two-message input. -/
theorem c5_estimate_amended_witness :
    estimated_tokens ["hello there", "general kenobi says hi"] =
      ⌊(13 : ℚ) / 10 *
        ((([ "hello there", "general kenobi says hi"
           ].map word_count).sum : ℕ) : ℚ)⌋₊ :=
  (c5_estimate_amended ["hello there", "general kenobi says hi"]).1

end Gateway

namespace Router

/-- Source constant `settings.PROVIDER_PRIORITY` (config.py). -/
def PROVIDER_PRIORITY : List String := ["openai", "anthropic", "local"]

/-- A registered provider as seen by the router: its name and its
`supports_model` capability predicate.  Registered providers have
pairwise distinct names, so the source's object-identity membership test
in `_get_providers_for_model` is modelled by name equality. -/
structure Provider where
  name : String
  supports_model : String → Bool

/-- Outcome of one `provider.completion` call made through
`_execute_with_circuit_breaker`: success, a `ProviderError`, or a
fast-failing `CircuitBreakerError` because the breaker is OPEN. -/
inductive CallOutcome where
  | success
  | provider_error (message : String)
  | breaker_open
  deriving Repr, DecidableEq

/-- Result of `ProviderRouter.route` (router.py lines 100-210).  A success
is summarized by the serving provider's name, the `is_fallback` flag and
the `attempted_providers` list of the response; the other constructors
are the exceptions the method raises or lets propagate:
`ModelNotSupportedError`, the final `ProviderError("all", ...)`, a
`ProviderError` propagating out of the preferred-provider call, and a
`CircuitBreakerError` propagating out of the preferred-provider call. -/
inductive RouteResult where
  | ok (provider : String) (is_fallback : Bool)
      (attempted_providers : List String)
  | model_not_supported
  | all_failed (attempted_providers : List String)
  | provider_error_direct (provider message : String)
  | breaker_open_unhandled (provider : String)
  deriving Repr, DecidableEq

/-- Python `str.lower()` for the ASCII names involved. -/
def py_lower (s : String) : String := String.mk (s.data.map Char.toLower)

/-- Embedding of `ProviderRouter._get_provider_by_name` (router.py lines
256-261). -/
def get_provider_by_name (providers : List Provider) (name : String) :
    Option Provider :=
  providers.find? (fun p => p.name == py_lower name)

/-- Embedding of `ProviderRouter._get_providers_for_model` (router.py lines
236-254): providers from the priority order that support the model,
followed by any remaining registered providers that support it. -/
def get_providers_for_model (providers : List Provider)
    (priority : List String) (model : String) : List Provider :=
  let capable := (priority.filterMap
    (fun n => get_provider_by_name providers n)).filter
    (fun p => p.supports_model model)
  capable ++ providers.filter
    (fun p => capable.all (fun q => !(q.name == p.name)) &&
      p.supports_model model)

/-- Embedding of the attempt loop of `ProviderRouter.route` (router.py
lines 142-210): try each capable provider in order; a `ProviderError`
or an OPEN breaker moves on to the next; success sets `is_fallback`
when the provider was not the first attempted; exhaustion raises
`ProviderError("all", ...)` carrying the attempted list. -/
def try_providers (exec : String → CallOutcome) :
    List Provider → List String → RouteResult
  | [], attempted => .all_failed attempted
  | p :: rest, attempted =>
    let attempted2 := attempted ++ [p.name]
    match exec p.name with
    | .success => .ok p.name (decide (attempted2.length > 1)) attempted2
    | .breaker_open => try_providers exec rest attempted2
    | .provider_error _ => try_providers exec rest attempted2

/-- Embedding of `ProviderRouter.route` (router.py lines 100-210).  When a
preferred provider is named, found and it supports the model, its
completion is called and the outcome — success or exception — is
returned directly, without building the candidate list; on that path
the provider's own response is returned unrewritten, and each
provider's `completion` constructs it with `attempted_providers` set to
the singleton of its own name (openai_provider.py line 144,
anthropic_provider.py line 145) and `is_fallback` left at its default
False.  Otherwise the priority-ordered candidate list is tried in
turn, and the loop overwrites `attempted_providers` with the visited
list. -/
def route (providers : List Provider) (priority : List String)
    (exec : String → CallOutcome) (model : String)
    (preferred_provider : Option String) : RouteResult :=
  let general :=
    let capable := get_providers_for_model providers priority model
    if capable.isEmpty then .model_not_supported
    else try_providers exec capable []
  match preferred_provider with
  | some pref =>
    match get_provider_by_name providers pref with
    | some p =>
      if p.supports_model model then
        match exec p.name with
        | .success => .ok p.name false [p.name]
        | .provider_error m => .provider_error_direct p.name m
        | .breaker_open => .breaker_open_unhandled p.name
      else general
    | none => general
  | none => general

/-- HTTP status the gateway produces for each `route` outcome, per the
exception handlers registered in main.py (lines 93-147): `ProviderError`
maps to 503; `ModelNotSupportedError` and `CircuitBreakerError` have no
registered handler, so FastAPI's default handling returns HTTP 500. -/
def http_status_of_route : RouteResult → ℕ
  | .ok _ _ _ => 200
  | .model_not_supported => 500
  | .all_failed _ => 503
  | .provider_error_direct _ _ => 503
  | .breaker_open_unhandled _ => 500

/-- Example provider with the OpenAI model table (openai_provider.py lines
43-49). -/
def openai_example : Provider :=
  { name := "openai"
    supports_model := fun m =>
      m == "gpt-4" || m == "gpt-4-turbo" || m == "gpt-4-turbo-preview" ||
      m == "gpt-3.5-turbo" || m == "gpt-3.5" }

/-- Example provider with the Anthropic model table (anthropic_provider.py
lines 42-49). -/
def anthropic_example : Provider :=
  { name := "anthropic"
    supports_model := fun m =>
      m == "claude-3-opus" || m == "claude-3-sonnet" ||
      m == "claude-3-haiku" || m == "claude-opus" ||
      m == "claude-sonnet" || m == "claude-haiku" }

/-- Example provider pair for the preferred-provider scenario of spec
section 8 (scenario 3): both registered providers support the request's
model. -/
def openai_gpt4 : Provider :=
  { name := "openai", supports_model := fun m => m == "gpt-4" }

/-- Second provider of the pair, also supporting the model. -/
def anthropic_gpt4 : Provider :=
  { name := "anthropic", supports_model := fun m => m == "gpt-4" }

/-- Execution environment where openai raises a `ProviderError` and every
other provider succeeds. -/
def exec_openai_fails : String → CallOutcome :=
  fun n => if n == "openai" then .provider_error "boom" else .success

end Router

namespace Router

/-- C3 counterexample: both registered providers support "gpt-4", the
preferred provider openai raises a `ProviderError`, and its breaker is
not OPEN.  The claim requires the other capable provider to be appended
after the preferred one so the failure falls through to anthropic; the
code instead returns the preferred provider's error directly and never
attempts anthropic. -/
theorem c3_preferred_no_fallback_counterexample :
    route [openai_gpt4, anthropic_gpt4] PROVIDER_PRIORITY exec_openai_fails
      "gpt-4" (some "openai") = .provider_error_direct "openai" "boom" ∧
    route [openai_gpt4, anthropic_gpt4] PROVIDER_PRIORITY exec_openai_fails
      "gpt-4" (some "openai") ≠
      .ok "anthropic" true ["openai", "anthropic"] := by
  decide

/-- C3 amended: when `preferred_provider` names a registered provider that
supports the request's model, that provider alone is invoked —
regardless of its circuit-breaker state — and its outcome is returned
directly: on success the provider's own response, with `is_fallback`
False and `attempted_providers` the singleton of that provider's name
as its `completion` set it, and on a `ProviderError` or an OPEN breaker
the exception propagates with no other candidate tried; the global
priority list is consulted only when the preferred provider is unknown
or does not support the model. -/
theorem c3_preferred_provider_amended (providers : List Provider)
    (priority : List String) (exec : String → CallOutcome) (model : String)
    (pref : String) (p : Provider)
    (hfind : get_provider_by_name providers pref = some p)
    (hsup : p.supports_model model = true) :
    route providers priority exec model (some pref) =
      (match exec p.name with
       | .success => .ok p.name false [p.name]
       | .provider_error m => .provider_error_direct p.name m
       | .breaker_open => .breaker_open_unhandled p.name) := by
  cases hcall : exec p.name <;> simp [route, hfind, hsup, hcall]

/-- Witness for `c3_preferred_provider_amended` at the concrete world of
the counterexample: the preferred provider's error is returned as the
route outcome. -/
theorem c3_preferred_provider_amended_witness :
    route [openai_gpt4, anthropic_gpt4] PROVIDER_PRIORITY exec_openai_fails
      "gpt-4" (some "openai") =
      (match exec_openai_fails openai_gpt4.name with
       | .success => .ok openai_gpt4.name false [openai_gpt4.name]
       | .provider_error m => .provider_error_direct openai_gpt4.name m
       | .breaker_open => .breaker_open_unhandled openai_gpt4.name) :=
  c3_preferred_provider_amended [openai_gpt4, anthropic_gpt4]
    PROVIDER_PRIORITY exec_openai_fails "gpt-4" "openai" openai_gpt4
    rfl rfl

/-- C6: a completion request for a model no registered provider supports
raises `ModelNotSupportedError`; main.py registers no exception handler
for it, so the gateway answers with FastAPI's default HTTP 500, not the
HTTP 400 `model_not_supported` response the spec requires. -/
theorem c6_unsupported_model_http_500 :
    route [openai_example, anthropic_example] PROVIDER_PRIORITY
      (fun _ => .success) "mistral-large" none = .model_not_supported ∧
    http_status_of_route
      (route [openai_example, anthropic_example] PROVIDER_PRIORITY
        (fun _ => .success) "mistral-large" none) = 500 ∧
    (500 : ℕ) ≠ 400 := by
  decide

end Router

namespace ControlPlane

/-- Run row fields touched by the status-update and cancel endpoints
(models.py `Run`); timestamps are abstract instants. -/
structure Run where
  status : String
  started_at : Option ℕ
  completed_at : Option ℕ
  duration_seconds : Option ℤ
  error_message : Option String
  current_step : Option String
  deriving Repr, DecidableEq

/-- Terminal statuses as listed by `update_run_status` (runs.py line 316). -/
def terminal_statuses : List String :=
  ["completed", "failed", "cancelled", "budget_exceeded", "timeout"]

/-- Modelled from the spec: the control-plane schema `RunStatusUpdate`
(control_plane/src/schemas.py is not under src/).  Per spec sections 3
and 4.5 the status-update payload carries the requested Run status plus
optional `error_message` and `current_step`. -/
structure RunStatusUpdate where
  status : String
  error_message : Option String
  current_step : Option String
  deriving Repr, DecidableEq

/-- Embedding of `update_run_status` (runs.py lines 278-339) for a run that
exists and belongs to the caller's tenant; `now` stands for
`datetime.utcnow()`.  Python truthiness of the optional strings is
`some s` with `s` nonempty. -/
def update_run_status (now : ℕ) (run : Run) (upd : RunStatusUpdate) : Run :=
  let run1 := { run with status := upd.status }
  let run2 :=
    if upd.status == "running" && run1.started_at.isNone then
      { run1 with started_at := some now }
    else run1
  let run3 :=
    if terminal_statuses.contains upd.status && run2.completed_at.isNone then
      { run2 with
        completed_at := some now
        duration_seconds :=
          match run2.started_at with
          | some t => some ((now : ℤ) - (t : ℤ))
          | none => run2.duration_seconds }
    else run2
  let run4 :=
    match upd.error_message with
    | some s => if s ≠ "" then { run3 with error_message := some s } else run3
    | none => run3
  match upd.current_step with
  | some s => if s ≠ "" then { run4 with current_step := some s } else run4
  | none => run4

/-- Embedding of `cancel_run` (runs.py lines 342-393) for a run that exists
and belongs to the caller's tenant: a run that is neither pending nor
running is rejected with HTTP 400; otherwise the run is marked
cancelled with `completed_at` set. -/
def cancel_run (now : ℕ) (run : Run) : Except ℕ Run :=
  if !(run.status == "pending" || run.status == "running") then
    .error 400
  else
    .ok { run with
      status := "cancelled"
      completed_at := some now
      duration_seconds :=
        match run.started_at with
        | some t => some ((now : ℤ) - (t : ℤ))
        | none => run.duration_seconds }

/-- A run already in the terminal status completed, used as the C2
counterexample input. -/
def completed_run : Run :=
  { status := "completed", started_at := some 0, completed_at := some 10,
    duration_seconds := some 10, error_message := none,
    current_step := none }

/-- C2 counterexample: the status-update endpoint, asked to set a
completed run to running, overwrites the terminal status — terminal
states are not absorbing under this endpoint. -/
theorem c2_terminal_overwritten_counterexample :
    completed_run.status ∈ terminal_statuses ∧
    (update_run_status 20 completed_run
      { status := "running", error_message := none,
        current_step := none }).status = "running" ∧
    "running" ≠ "completed" := by
  decide

/-- C2 amended: the status-update endpoint overwrites a Run's status with
the requested status unconditionally, terminal or not (only
`completed_at`, once set, is preserved); cancellation of a non-pending,
non-running Run is rejected with HTTP 400. -/
theorem c2_run_status_amended (now : ℕ) (run : Run) (upd : RunStatusUpdate) :
    (update_run_status now run upd).status = upd.status ∧
    (run.status ≠ "pending" → run.status ≠ "running" →
      cancel_run now run = .error 400) ∧
    (run.completed_at.isSome = true →
      (update_run_status now run upd).completed_at = run.completed_at) := by
  refine ⟨?_, ?_, ?_⟩
  · unfold update_run_status
    cases upd.error_message <;> cases upd.current_step <;>
      dsimp only <;> split_ifs <;> rfl
  · intro h1 h2
    unfold cancel_run
    rw [if_pos]
    simp [h1, h2]
  · intro hsome
    have hnone : run.completed_at.isNone = false := by
      cases hc : run.completed_at
      · rw [hc] at hsome
        exact absurd hsome (by decide)
      · rfl
    unfold update_run_status
    cases upd.error_message <;> cases upd.current_step <;>
      dsimp only <;> split_ifs <;> simp_all

/-- Witness for `c2_run_status_amended` at the concrete completed run:
its cancellation is rejected with HTTP 400 and its `completed_at` is
preserved by a status update. -/
theorem c2_run_status_amended_witness :
    cancel_run 20 completed_run = .error 400 ∧
    (update_run_status 20 completed_run
      { status := "failed", error_message := none,
        current_step := none }).completed_at = completed_run.completed_at :=
  ⟨(c2_run_status_amended 20 completed_run
      { status := "failed", error_message := none,
        current_step := none }).2.1 (by decide) (by decide),
   (c2_run_status_amended 20 completed_run
      { status := "failed", error_message := none,
        current_step := none }).2.2 (by decide)⟩

end ControlPlane

namespace Worker

/-- Source constant `settings.STEP_MAX_RETRIES` (worker config.py). -/
def STEP_MAX_RETRIES : ℕ := 3

/-- Parsed JSON body of a queue message: each envelope key is present or
absent.  Identifier and name values are opaque strings; `step_config`
is an opaque JSON object (a key-value list); `attempt` is a natural. -/
structure QueueMessage where
  run_id : Option String
  step_id : Option String
  step_name : Option String
  step_type : Option String
  step_config : Option (List (String × String))
  attempt : Option ℕ
  deriving Repr, DecidableEq

/-- Required-field validation of `_process_message` (sqs_handler.py lines
159-171): the checked fields are run_id, step_id, step_name and
step_type — and nothing else. -/
def has_missing_required_fields (m : QueueMessage) : Bool :=
  m.run_id.isNone || m.step_id.isNone || m.step_name.isNone ||
  m.step_type.isNone

/-- Step row fields touched by `_update_step_status` (models.py `Step`). -/
structure Step where
  status : String
  started_at : Option ℕ
  completed_at : Option ℕ
  duration_seconds : Option ℤ
  output_data : Option (List (String × String))
  error_message : Option String
  tokens_used : ℤ
  cost_usd : ℚ
  deriving Repr, DecidableEq

/-- Embedding of `StepExecutor._update_step_status` (step_executor.py lines
377-414).  Each keyword argument is written to the row only when Python
finds it truthy: a datetime whenever present, `duration_seconds` under
an explicit `is not None` check, a dict when nonempty, a string when
nonempty, and the numbers `tokens_used` and `cost_usd` only when
nonzero. -/
def update_step_status (step : Step) (status : String)
    (started_at completed_at : Option ℕ) (duration_seconds : Option ℤ)
    (output_data : Option (List (String × String)))
    (error_message : Option String) (tokens_used : ℤ) (cost_usd : ℚ) :
    Step :=
  let s1 := { step with status := status }
  let s2 := match started_at with
    | some t => { s1 with started_at := some t }
    | none => s1
  let s3 := match completed_at with
    | some t => { s2 with completed_at := some t }
    | none => s2
  let s4 := match duration_seconds with
    | some d => { s3 with duration_seconds := some d }
    | none => s3
  let s5 := match output_data with
    | some l => if l ≠ [] then { s4 with output_data := some l } else s4
    | none => s4
  let s6 := match error_message with
    | some e => if e ≠ "" then { s5 with error_message := some e } else s5
    | none => s5
  let s7 :=
    if tokens_used ≠ 0 then { s6 with tokens_used := tokens_used } else s6
  if cost_usd ≠ 0 then { s7 with cost_usd := cost_usd } else s7

/-- Run aggregate fields touched by `_update_run_usage`. -/
structure RunUsage where
  tokens_used : ℤ
  estimated_cost_usd : ℚ
  deriving Repr, DecidableEq

/-- Embedding of `StepExecutor._update_run_usage` (step_executor.py lines
416-434): unconditional addition to the Run aggregates. -/
def update_run_usage (run : RunUsage) (tokens : ℤ) (cost : ℚ) : RunUsage :=
  { tokens_used := run.tokens_used + tokens
    estimated_cost_usd := run.estimated_cost_usd + cost }

/-- Retryable error patterns of `_is_retryable_error` (step_executor.py
lines 350-359). -/
def retryable_patterns : List String :=
  ["timeout", "connection", "rate limit", "503", "502", "500"]

/-- Embedding of `StepExecutor._is_retryable_error` (step_executor.py lines
335-365): a substring test of the lowercased error text against the
pattern list. -/
def is_retryable_error (error : String) : Bool :=
  retryable_patterns.any
    (fun p => decide (p.toList <:+: (Router.py_lower error).toList))

/-- Execution result dictionary returned by `StepExecutor.execute` on the
failure path (step_executor.py lines 186-190). -/
structure ExecFailure where
  error : String
  retryable : Bool
  deriving Repr, DecidableEq

/-- Embedding of the failure path of `StepExecutor.execute`
(step_executor.py lines 157-190): the Step row goes to retrying when
the error is retryable and the attempt is below `STEP_MAX_RETRIES` and
to failed otherwise, with the error message recorded; the returned dict
carries the error text and the retryable flag. -/
def execute_failure (now : ℕ) (step : Step) (attempt : ℕ) (err : String)
    (duration : ℤ) : Step × ExecFailure :=
  let retryable := is_retryable_error err
  let status :=
    if retryable && decide (attempt < STEP_MAX_RETRIES) then "retrying"
    else "failed"
  (update_step_status step status none (some now) (some duration) none
    (some err) 0 0,
   { error := err, retryable := retryable })

/-- Queue-side effect decided by `_process_message` (sqs_handler.py lines
132-231): delete the message, leave it for visibility-timeout
redelivery, or move it to the DLQ with a reason. -/
inductive QueueAction where
  | deleted
  | left_in_queue
  | moved_to_dlq (reason : String)
  deriving Repr, DecidableEq

/-- Execution result as seen by `_process_message`: success, or failure
carrying the error text and the retryable flag of the result dict. -/
inductive ExecResult where
  | success
  | failure (error : String) (retryable : Bool)
  deriving Repr, DecidableEq

/-- Embedding of `_process_message` (sqs_handler.py lines 132-231) with the
step execution abstracted as `run_step` applied to the message's
attempt (`body.get('attempt', 1)`): validation first — any missing
required field goes to the DLQ with reason "Missing required fields"
and nothing is executed — then the result decides deletion, redelivery,
or DLQ with the failure reason. -/
def process_message (m : QueueMessage) (run_step : ℕ → ExecResult) :
    QueueAction :=
  if has_missing_required_fields m then
    .moved_to_dlq "Missing required fields"
  else
    let attempt := m.attempt.getD 1
    match run_step attempt with
    | .success => .deleted
    | .failure err retryable =>
      if retryable && decide (attempt < STEP_MAX_RETRIES) then
        .left_in_queue
      else
        .moved_to_dlq err

end Worker

namespace Worker

/-- A queue message carrying every envelope key except `attempt`. -/
def message_without_attempt : QueueMessage :=
  { run_id := some "r1", step_id := some "s1", step_name := some "fetch",
    step_type := some "tool", step_config := some [], attempt := none }

/-- C7 counterexample: a message missing only `attempt` is not routed to
the DLQ — the worker executes the step (attempt defaulting to 1) and,
on success, deletes the message; moreover the DLQ reason the code uses
is "Missing required fields", not "missing_required_fields". -/
theorem c7_attempt_not_required_counterexample :
    message_without_attempt.attempt = none ∧
    process_message message_without_attempt (fun _ => .success) =
      .deleted ∧
    QueueAction.deleted ≠ .moved_to_dlq "missing_required_fields" ∧
    process_message { message_without_attempt with run_id := none }
      (fun _ => .success) = .moved_to_dlq "Missing required fields" := by
  refine ⟨rfl, rfl, by decide, rfl⟩

/-- C7 amended: the required keys are run_id, step_id, step_name and
step_type only — `attempt` is optional and defaults to 1, like
`step_config` — and a message missing any required key is not executed
and goes to the DLQ with reason "Missing required fields"; a message
with all four present is executed with attempt `getD 1`. -/
theorem c7_required_fields_amended (m : QueueMessage)
    (run_step : ℕ → ExecResult) :
    (has_missing_required_fields m = true ↔
      (m.run_id = none ∨ m.step_id = none ∨ m.step_name = none ∨
        m.step_type = none)) ∧
    (has_missing_required_fields m = true →
      process_message m run_step = .moved_to_dlq "Missing required fields") ∧
    (has_missing_required_fields m = false →
      process_message m run_step =
        (match run_step (m.attempt.getD 1) with
         | .success => .deleted
         | .failure err retryable =>
           if retryable && decide (m.attempt.getD 1 < STEP_MAX_RETRIES) then
             .left_in_queue
           else .moved_to_dlq err)) := by
  refine ⟨?_, ?_, ?_⟩
  · simp only [has_missing_required_fields, Bool.or_eq_true,
      Option.isNone_iff_eq_none]
    tauto
  · intro h
    simp [process_message, h]
  · intro h
    simp [process_message, h]

/-- Witness for `c7_required_fields_amended`: the attempt-less message
with all required keys is executed and its success deletes it. -/
theorem c7_required_fields_amended_witness :
    process_message message_without_attempt (fun _ => .success) =
      .deleted :=
  (c7_required_fields_amended message_without_attempt
    (fun _ => .success)).2.2 rfl

/-- A retryable error has nonempty text: every pattern of
`retryable_patterns` is a nonempty substring of the lowercased text. -/
lemma is_retryable_error_ne_empty (err : String)
    (h : is_retryable_error err = true) : err ≠ "" := by
  intro he
  subst he
  exact absurd h (by decide)

/-- C8: when a step execution fails, the Step row is set to retrying with
the error_message recorded and the message is left in the queue exactly
when the error is classified retryable and the message's attempt is
strictly below the maximum attempts; otherwise the row is set to failed
and the message moves to the DLQ with the failure reason. -/
theorem c8_failure_retry_or_dlq (now : ℕ) (step : Step) (m : QueueMessage)
    (err : String) (duration : ℤ)
    (hvalid : has_missing_required_fields m = false) :
    (is_retryable_error err = true ∧ m.attempt.getD 1 < STEP_MAX_RETRIES →
      (execute_failure now step (m.attempt.getD 1) err duration).1.status =
        "retrying" ∧
      (execute_failure now step (m.attempt.getD 1) err
        duration).1.error_message = some err ∧
      process_message m (fun _ => .failure err (is_retryable_error err)) =
        .left_in_queue) ∧
    (is_retryable_error err = false ∨
        ¬ m.attempt.getD 1 < STEP_MAX_RETRIES →
      (execute_failure now step (m.attempt.getD 1) err duration).1.status =
        "failed" ∧
      process_message m (fun _ => .failure err (is_retryable_error err)) =
        .moved_to_dlq err) := by
  constructor
  · rintro ⟨hr, hlt⟩
    have hne : err ≠ "" := is_retryable_error_ne_empty err hr
    refine ⟨?_, ?_, ?_⟩
    · simp [execute_failure, update_step_status, hr, hlt, hne]
    · simp [execute_failure, update_step_status, hr, hlt, hne]
    · simp [process_message, hvalid, hr, hlt]
  · intro hcase
    have hb : (is_retryable_error err &&
        decide (m.attempt.getD 1 < STEP_MAX_RETRIES)) = false := by
      rcases hcase with h | h
      · simp [h]
      · simp [h]
    refine ⟨?_, ?_⟩
    · simp [execute_failure, update_step_status, hb]
      split <;> rfl
    · simp [process_message, hvalid, hb]

/-- Witness for `c8_failure_retry_or_dlq`: a connection-reset error on
attempt 1 is retryable, so the row goes to retrying and the message is
left for redelivery. -/
theorem c8_failure_retry_or_dlq_witness :
    (execute_failure 7
      { status := "running", started_at := some 3, completed_at := none,
        duration_seconds := none, output_data := none,
        error_message := none, tokens_used := 0, cost_usd := 0 }
      (message_without_attempt.attempt.getD 1)
      "Connection reset by peer" 4).1.status = "retrying" ∧
    process_message message_without_attempt
      (fun _ => .failure "Connection reset by peer"
        (is_retryable_error "Connection reset by peer")) =
      .left_in_queue := by
  have h := (c8_failure_retry_or_dlq 7
    { status := "running", started_at := some 3, completed_at := none,
      duration_seconds := none, output_data := none,
      error_message := none, tokens_used := 0, cost_usd := 0 }
    message_without_attempt "Connection reset by peer" 4
    rfl).1 ⟨by decide, by decide⟩
  exact ⟨h.1, h.2.2⟩

/-- A step row holding usage from an earlier attempt, used as the C9
failing input. -/
def step_with_usage : Step :=
  { status := "running", started_at := some 0, completed_at := none,
    duration_seconds := none, output_data := none, error_message := none,
    tokens_used := 100, cost_usd := 1/200 }

/-- C9: on a successful execution whose outcome has tokens_used = 0 and
cost_usd = 0 (every tool step), `_update_step_status` skips the
assignments because of its Python truthiness guards, leaving the row's
previous usage values in place instead of setting them to the outcome's
zeros; the Run aggregates are updated unconditionally (adding zero). -/
theorem c9_zero_usage_not_written :
    (update_step_status step_with_usage "success" none (some 9) (some 9)
      (some [("result", "ok")]) none 0 0).status = "success" ∧
    (update_step_status step_with_usage "success" none (some 9) (some 9)
      (some [("result", "ok")]) none 0 0).tokens_used = 100 ∧
    (update_step_status step_with_usage "success" none (some 9) (some 9)
      (some [("result", "ok")]) none 0 0).cost_usd = 1/200 ∧
    (100 : ℤ) ≠ 0 ∧ (1/200 : ℚ) ≠ 0 ∧
    update_run_usage { tokens_used := 40, estimated_cost_usd := 1/10 } 0 0 =
      { tokens_used := 40, estimated_cost_usd := 1/10 } := by
  refine ⟨rfl, rfl, by norm_num [update_step_status, step_with_usage], ?_, ?_, ?_⟩
  · decide
  · norm_num
  · simp [update_run_usage]

end Worker
